import Mathlib

/-!
Verification of the event-search pipeline of the `nearNow-event` repository
(`src/services/predicthq.ts`).

JavaScript values are shallowly embedded as follows:
* JS numbers are modelled as exact rationals (`ℚ`); all numeric literals in the
  pipeline (radii, the miles→km factor, coordinates) are exactly representable
  and no float-rounding behaviour is load-bearing for any property below.
* A possibly-`undefined` value is an `Option`; JS truthiness on strings
  (`"" `is falsy) and numbers (`0` is falsy) is made explicit by `strTruthy`
  and `numTruthy`.
* Fallible operations return `Except`/`Option`; network effects (the geocoder,
  the provider HTTP call, the per-id fetch) are passed in as function
  arguments, so every operation is a pure function of its inputs.
-/

namespace NearNow

/-- JS truthiness of a possibly-undefined string: `undefined` and `""` are falsy. -/
def strTruthy : Option String → Bool
  | some s => if s = "" then false else true
  | none => false

/-- JS truthiness of a possibly-undefined number: `undefined` and `0` are falsy. -/
def numTruthy : Option ℚ → Bool
  | some q => if q = 0 then false else true
  | none => false

/-- JS `a || b` on possibly-undefined strings: `b` when `a` is falsy. -/
def jsStrOr (a b : Option String) : Option String :=
  if strTruthy a then a else b

/-- JS `a || b` where `b` is a number literal: `some b` when `a` is falsy. -/
def jsNumOr (a : Option ℚ) (b : ℚ) : Option ℚ :=
  if numTruthy a then a else some b

/-- First truthy string in a JS `x || y || ... || dflt` chain of string values. -/
def firstTruthy (l : List (Option String)) (dflt : String) : String :=
  match l with
  | [] => dflt
  | a :: rest =>
      match a with
      | some s => if s = "" then firstTruthy rest dflt else s
      | none => firstTruthy rest dflt

/-- Splitting accumulator: collect characters up to each separator. -/
def jsSplitAux (sep : Char) : List Char → List Char → List String
  | [], acc => [String.mk acc.reverse]
  | c :: cs, acc =>
      if c = sep then String.mk acc.reverse :: jsSplitAux sep cs []
      else jsSplitAux sep cs (c :: acc)

/-- JS `s.split(sep)` for a one-character separator (`"".split(",") = [""]`,
like JS). -/
def jsSplit (s : String) (sep : Char) : List String :=
  jsSplitAux sep s.toList []

/-- JS whitespace for `trim` (space, tab, line feed, vertical tab, form feed,
carriage return). -/
def isJsSpace (c : Char) : Bool :=
  c = ' ' || c.toNat = 9 || c.toNat = 10 || c.toNat = 11 || c.toNat = 12 || c.toNat = 13

/-- JS `s.trim()`: strip whitespace from both ends. -/
def jsTrim (s : String) : String :=
  String.mk ((s.toList.dropWhile isJsSpace).reverse.dropWhile isJsSpace).reverse

/-- JS `Math.round`: round half toward positive infinity. -/
def jsRound (q : ℚ) : ℤ :=
  ⌊q + 1 / 2⌋

/-- The miles→kilometers conversion factor `1.60934` used by the pipeline. -/
def MILES_TO_KM : ℚ := 160934 / 100000

/-- Rendering of a JS number into a query string (`template ${x}` interpolation).
The exact digit format is not load-bearing for any property below; this
rendering is injective on ℚ, which is all the proofs use. -/
def ratStr (q : ℚ) : String := toString q

/-- UTF-8 bytes of a character, as naturals (for percent-encoding). -/
def utf8Bytes (c : Char) : List Nat :=
  let n := c.toNat
  if n < 128 then [n]
  else if n < 2048 then [192 + n / 64, 128 + n % 64]
  else if n < 65536 then [224 + n / 4096, 128 + (n / 64) % 64, 128 + n % 64]
  else [240 + n / 262144, 128 + (n / 4096) % 64, 128 + (n / 64) % 64, 128 + n % 64]

/-- Uppercase hexadecimal digit for `n < 16`. -/
def hexDigit (n : Nat) : Char :=
  if n < 10 then Char.ofNat (48 + n) else Char.ofNat (55 + n)

/-- Percent-encoding of one byte, e.g. `32 ↦ "%20"`. -/
def percentByte (n : Nat) : String :=
  String.mk ['%', hexDigit (n / 16), hexDigit (n % 16)]

/-- Characters left unescaped by JS `encodeURIComponent`:
`A-Z a-z 0-9 - _ . ! ~ * ' ( )`. -/
def isURIUnreserved (c : Char) : Bool :=
  (65 ≤ c.toNat && c.toNat ≤ 90) || (97 ≤ c.toNat && c.toNat ≤ 122) ||
  (48 ≤ c.toNat && c.toNat ≤ 57) ||
  c = '-' || c = '_' || c = '.' || c = '!' || c = '~' || c = '*' ||
  c.toNat = 39 || c = '(' || c = ')'

/-- JS `encodeURIComponent`: unreserved characters pass through, everything
else is percent-encoded from its UTF-8 bytes. -/
def encodeURIComponent (s : String) : String :=
  String.join (s.toList.map (fun c =>
    if isURIUnreserved c then String.singleton c
    else String.join ((utf8Bytes c).map percentByte)))

/-- JS `Number.toFixed(4)` (used only for the coordinate fallback address
string, whose exact content no property below depends on): round to four
decimal places, ties away from zero, pad the fraction to four digits. -/
def toFixed4 (q : ℚ) : String :=
  let neg := q < 0
  let a := if neg then -q else q
  let scaled := Rat.floor (a * 10000 + 1 / 2)
  let m := scaled.toNat
  let frac := m % 10000
  let pad := if frac < 10 then "000" else if frac < 100 then "00" else if frac < 1000 then "0" else ""
  (if neg && m ≠ 0 then "-" else "") ++ toString (m / 10000) ++ "." ++ pad ++ toString frac

/-! ## Data model (`src/types/event.ts` and the interfaces of `src/services/predicthq.ts`) -/

/-- A latitude/longitude pair (the `location.location` object of a provider record). -/
structure Coord where
  lat : ℚ
  lon : ℚ
deriving DecidableEq

/-- The `address` block nested in a provider record's `location` array. -/
structure PHQAddress where
  name : Option String := none
  street : Option String := none
  locality : Option String := none
  region : Option String := none
  country : Option String := none
deriving DecidableEq

/-- One element of a provider record's `location` array. -/
structure PHQLocation where
  location : Coord
  address : Option PHQAddress := none
deriving DecidableEq

/-- A provider `entities` element (venue, organizer, performer, ...). -/
structure PHQEntity where
  entity_id : Option String := none
  name : String
  type : String
  formatted_address : Option String := none
  url : Option String := none
  website : Option String := none
deriving DecidableEq

/-- The `geo.geometry` object: `coordinates` is `[longitude, latitude]`. -/
structure PHQGeometry where
  coordinates : ℚ × ℚ
deriving DecidableEq

/-- The `geo` object of a provider record. -/
structure PHQGeo where
  geometry : PHQGeometry
deriving DecidableEq

/-- A provider event record (`PredictHQEvent` interface). Fields irrelevant to
every property below (ranking scores, labels, spend predictions, ...) are
omitted; every field `transformEvent`, `getEventById`, `getEventsByIds` or the
query builder reads is present. `end` and `private` are Lean keywords, so
those two source fields are spelled `end_` and `private_`. -/
structure PredictHQEvent where
  id : String
  title : String
  description : Option String := none
  category : String := ""
  start : String := ""
  end_ : Option String := none
  timezone : String := ""
  location : List PHQLocation := []
  entities : Option (List PHQEntity) := none
  url : Option String := none
  website : Option String := none
  ticket_url : Option String := none
  external_url : Option String := none
  private_ : Option Bool := none
  country : Option String := none
  geo : Option PHQGeo := none
deriving DecidableEq

/-- The provider HTTP response envelope (`PredictHQResponse`). -/
structure PredictHQResponse where
  count : Nat := 0
  next : Option String := none
  previous : Option String := none
  results : List PredictHQEvent := []
deriving DecidableEq

/-- The internal `Event.venue` block. -/
structure Venue where
  name : String
  address : String
  city : Option String := none
  latitude : Option ℚ := none
  longitude : Option ℚ := none
deriving DecidableEq

/-- The internal `Event.price` block (never produced by this integration). -/
structure Price where
  min : Option ℚ := none
  max : Option ℚ := none
  currency : String
  display : String
deriving DecidableEq

/-- The internal `Event` shape produced for the UI layer. -/
structure Event where
  id : String
  name : String
  description : String
  startDate : String
  endDate : String
  timezone : String
  url : String
  imageUrl : Option String := none
  venue : Option Venue := none
  price : Option Price := none
  category : Option String := none
  isOnline : Bool
deriving DecidableEq

/-- The inbound `EventFilters` shape (radius is in miles). -/
structure EventFilters where
  city : Option String := none
  latitude : Option ℚ := none
  longitude : Option ℚ := none
  radius : Option ℚ := none
  startDate : Option String := none
  endDate : Option String := none
  category : Option String := none
  priceMin : Option ℚ := none
  priceMax : Option ℚ := none
  query : Option String := none
deriving DecidableEq

/-- A successful result of `geocodeLocation`: coordinates plus the
country-scale classification flag. The geocoder itself is a network call; it
is passed into the query builder as a function `String → Option GeocodeHit`,
`none` being a geocoding failure (the source function never throws). -/
structure GeocodeHit where
  lat : ℚ
  lon : ℚ
  isCountry : Bool
deriving DecidableEq

/-! ## Response transformer (`transformEvent`, predicthq.ts lines 204–322)

The source computes a sequence of local bindings; each binding is embedded as
a named definition so that the theorems can speak about the intermediate
resolution steps. -/

/-- Lines 205–206: `location = predicthqEvent.location?.[0]`,
`address = location?.address`. -/
def addressOf (p : PredictHQEvent) : Option PHQAddress :=
  p.location.head?.bind PHQLocation.address

/-- Lines 208–215: coordinates from the first `location` entry, else from
`geo.geometry.coordinates` (which is `[lon, lat]`). -/
def geoOf (p : PredictHQEvent) : Option Coord :=
  match p.location.head? with
  | some l => some l.location
  | none =>
      match p.geo with
      | some g => some { lat := g.geometry.coordinates.2, lon := g.geometry.coordinates.1 }
      | none => none

/-- Lines 217–220: `entities?.find(e => e.type === "venue")`. -/
def venueEntityOf (p : PredictHQEvent) : Option PHQEntity :=
  (p.entities.getD []).find? (fun e => e.type == "venue")

/-- Lines 222–225: `entities?.find(e => e.formatted_address) || venueEntity`
(JS `find` skips entities whose `formatted_address` is absent or `""`). -/
def entityWithAddressOf (p : PredictHQEvent) : Option PHQEntity :=
  ((p.entities.getD []).find? (fun e => strTruthy e.formatted_address)).orElse
    (fun _ => venueEntityOf p)

/-- Line 228: `venueEntity?.name || entityWithAddress?.name || address?.name || "Event Venue"`. -/
def venueNameOf (p : PredictHQEvent) : String :=
  firstTruthy
    [(venueEntityOf p).map PHQEntity.name,
     (entityWithAddressOf p).map PHQEntity.name,
     (addressOf p).bind PHQAddress.name]
    "Event Venue"

/-- Lines 230–257: the ordered address-string fallbacks — entity formatted
address, assembled street/locality/region/country parts, the address name when
distinct from the venue name, the top-level country, a rounded coordinate
pair, and finally the `"Location available"` placeholder. -/
def addressStringOf (p : PredictHQEvent) : String :=
  let a0 := jsStrOr ((entityWithAddressOf p).bind PHQEntity.formatted_address)
                    ((venueEntityOf p).bind PHQEntity.formatted_address)
  if strTruthy a0 then a0.getD "" else
    let address := addressOf p
    let addressParts :=
      [address.bind PHQAddress.street,
       address.bind PHQAddress.locality,
       address.bind PHQAddress.region,
       jsStrOr (address.bind PHQAddress.country) p.country].filterMap
        (fun x => if strTruthy x then x else none)
    if addressParts ≠ [] then String.intercalate ", " addressParts
    else if strTruthy (address.bind PHQAddress.name) &&
            ((address.bind PHQAddress.name).getD "" != venueNameOf p) then
      (address.bind PHQAddress.name).getD ""
    else if strTruthy p.country then p.country.getD ""
    else
      match geoOf p with
      | some g => toFixed4 g.lat ++ ", " ++ toFixed4 g.lon
      | none => "Location available"

/-- Lines 259–267: city is the address locality; when that is falsy and the
venue entity carries a formatted address, the second-to-last comma-separated
(trimmed) segment of that address. -/
def cityOf (p : PredictHQEvent) : Option String :=
  let city := (addressOf p).bind PHQAddress.locality
  if !strTruthy city && strTruthy ((venueEntityOf p).bind PHQEntity.formatted_address) then
    let parts :=
      (jsSplit (((venueEntityOf p).bind PHQEntity.formatted_address).getD "") ',').map jsTrim
    if parts.length ≥ 2 then some (parts.getD (parts.length - 2) "") else city
  else city

/-- Lines 281–289: the URL taken from an entity list — the first entity with
a truthy `url` or `website` contributes `e.url || e.website`; `none` when no
entity qualifies. -/
def entityUrl (es : List PHQEntity) : Option String :=
  match es.find? (fun e => strTruthy e.url || strTruthy e.website) with
  | some e => jsStrOr e.url e.website
  | none => none

/-- Lines 269–289: the provider-supplied URL, first of `ticket_url`,
`external_url`, `url`, `website`, then (when an `entities` array exists) the
entity-list URL. Returns `none` when the whole chain is exhausted. -/
def providerUrl (p : PredictHQEvent) : Option String :=
  if strTruthy p.ticket_url then p.ticket_url
  else if strTruthy p.external_url then p.external_url
  else if strTruthy p.url then p.url
  else if strTruthy p.website then p.website
  else
    match p.entities with
    | some es => entityUrl es
    | none => none

/-- The record carries no provider URL at all: `ticket_url`, `external_url`,
`url` and `website` are absent, and no entity carries a `url` or `website`. -/
def hasNoProviderUrl (p : PredictHQEvent) : Bool :=
  p.ticket_url.isNone && p.external_url.isNone && p.url.isNone && p.website.isNone &&
    (p.entities.getD []).all (fun e => e.url.isNone && e.website.isNone)

/-- Lines 293–296: the synthesized search-engine fallback URL — a Google
query embedding the event title and the resolved city
(`${title} tickets ${city || address?.locality || ''}`). -/
def googleFallbackUrl (p : PredictHQEvent) : String :=
  "https://www.google.com/search?q=" ++
    encodeURIComponent (p.title ++ " tickets " ++
      (jsStrOr (cityOf p) ((addressOf p).bind PHQAddress.locality)).getD "")

/-- Lines 269–296: the resolved outbound URL — the provider-supplied URL when
truthy, else the synthesized Google search URL. -/
def eventUrlOf (p : PredictHQEvent) : String :=
  if strTruthy (providerUrl p) then (providerUrl p).getD "" else googleFallbackUrl p

/-- Lines 298–321: assemble the internal `Event`. `venue` is present exactly
when `geo || address || venueEntity` is truthy; `isOnline` is
`predicthqEvent.private || false`; `price` and `imageUrl` are never set. -/
def transformEvent (p : PredictHQEvent) : Event :=
  { id := p.id
    name := p.title
    description := p.description.getD ""
    startDate := p.start
    endDate := if strTruthy p.end_ then p.end_.getD "" else p.start
    timezone := p.timezone
    url := eventUrlOf p
    imageUrl := none
    venue :=
      if (geoOf p).isSome || (addressOf p).isSome || (venueEntityOf p).isSome then
        some
          { name := venueNameOf p
            address := addressStringOf p
            city := cityOf p
            latitude := (geoOf p).map Coord.lat
            longitude := (geoOf p).map Coord.lon }
      else none
    price := none
    category := some p.category
    isOnline := p.private_.getD false }

/-! ## Query builder and search orchestrator (predicthq.ts lines 330–626) -/

/-- `new Date(s).toISOString()` for a supplied date string. JS date parsing
and re-serialization is not modelled (no property below depends on the value
of a date parameter); the string passes through unchanged. -/
def newDateToISOString (s : String) : String := s

/-- First value bound to `key` in an emitted parameter list (the pipeline
emits each load-bearing key at most once). -/
def findParam (key : String) : List (String × String) → Option String
  | [] => none
  | (k, v) :: rest => if key = k then some v else findParam key rest

/-- Lines 374–381: the `location_around` parameters, emitted only when both
coordinates are truthy. The radius is `searchRadius ? searchRadius * 1.60934
: 50`, rounded, rendered as `"{n}km"`; the caller-supplied radius is in miles,
the `: 50` default is already in kilometers. -/
def locationParams (sLat sLon sRad : Option ℚ) : List (String × String) :=
  if numTruthy sLat && numTruthy sLon then
    [("location_around.origin", ratStr (sLat.getD 0) ++ "," ++ ratStr (sLon.getD 0)),
     ("location_around.radius",
       toString (jsRound (if numTruthy sRad then sRad.getD 0 * MILES_TO_KM else 50)) ++ "km")]
  else []

/-- Lines 383–414: the date, keyword, category and fixed parameters appended
after the location block, in source order. `now` is the value of
`new Date().toISOString()` at call time. -/
def tailParams (now : String) (filters : EventFilters) : List (String × String) :=
  (if strTruthy filters.startDate then
     [("start.gte", newDateToISOString (filters.startDate.getD ""))]
   else [("start.gte", now)]) ++
  (if strTruthy filters.endDate then
     [("start.lte", newDateToISOString (filters.endDate.getD ""))]
   else []) ++
  (if strTruthy filters.query then [("q", filters.query.getD "")] else []) ++
  (if strTruthy filters.category then [("category", filters.category.getD "")] else []) ++
  [("private", "false"), ("limit", "50"), ("sort", "-rank")]

/-- The emitted query parameters of one `searchEvents` call, plus whether the
geocoder was invoked. -/
structure SearchOutcome where
  params : List (String × String)
  geocodeInvoked : Bool
deriving DecidableEq

/-- Lines 346–414 of `searchEvents`: the query-parameter construction.
Geocoding runs only when both coordinates are falsy and the city is truthy
(line 354); on geocode success the coordinates are overwritten and the radius
defaulted by place-kind via `searchRadius || 300` / `searchRadius || 30`
(lines 356–366); on geocode failure the city is appended as a keyword `q`
parameter and the location variables stay untouched (lines 367–371). -/
def buildSearchParams (geocode : String → Option GeocodeHit) (now : String)
    (filters : EventFilters) : SearchOutcome :=
  if !numTruthy filters.latitude && !numTruthy filters.longitude && strTruthy filters.city then
    match geocode (filters.city.getD "") with
    | some g =>
        let sRad := if g.isCountry then jsNumOr filters.radius 300 else jsNumOr filters.radius 30
        { params := locationParams (some g.lat) (some g.lon) sRad ++ tailParams now filters
          geocodeInvoked := true }
    | none =>
        { params := ("q", filters.city.getD "") ::
            (locationParams filters.latitude filters.longitude filters.radius ++
             tailParams now filters)
          geocodeInvoked := true }
  else
    { params := locationParams filters.latitude filters.longitude filters.radius ++
        tailParams now filters
      geocodeInvoked := false }

/-- Lines 472–479 of `searchEvents`: transform the provider response — an
absent or empty `results` array yields the empty sequence, otherwise the
records are transformed in provider order. -/
def searchEventsResults (resp : PredictHQResponse) : List Event :=
  if resp.results.isEmpty then [] else resp.results.map transformEvent

/-- Lines 492–503 of `getPopularEvents`: the filter set it hands to
`searchEvents` — explicit truthy coordinates come with a fixed 50-mile
radius; else a truthy city passes through; else the fixed default city. -/
def popularFilters (city : Option String) (lat lon : Option ℚ) : EventFilters :=
  if numTruthy lat && numTruthy lon then
    { latitude := lat, longitude := lon, radius := some 50 }
  else if strTruthy city then { city := city }
  else { city := some "New York" }

/-- Lines 581–597 of `getEventById`, after a 200-status provider response
`resp` to the id-filtered query: an absent/empty `results` array or no result
whose `id` matches fails with a descriptive error; otherwise the first
matching record is transformed. -/
def getEventById (eventId : String) (resp : PredictHQResponse) : Except String Event :=
  if resp.results.isEmpty then
    Except.error ("Event not found. The event ID \"" ++ eventId ++
      "\" may be invalid or the event may no longer be available.")
  else
    match resp.results.find? (fun e => e.id == eventId) with
    | none =>
        Except.error ("Event not found. The event ID \"" ++ eventId ++
          "\" was not found in the API response.")
    | some e => Except.ok (transformEvent e)

/-- Lines 610–626 of `getEventsByIds`: each id is fetched independently
(`fetchById` is the per-id lookup, `Except.error` modelling a rejected
promise); `.catch(() => null)` maps a failure to `null` (`Option.none`), and
the nulls are filtered out after the join. The outer `try/catch` is
unreachable — no expression after the per-item `catch` can throw. -/
def getEventsByIds (fetchById : String → Except String Event)
    (eventIds : List String) : List Event :=
  let results := eventIds.map (fun i => (fetchById i).toOption)
  results.filterMap (fun r => r)

/-! ## Concrete sample inputs used by counterexamples and witnesses -/

/-- A geocoder that fails on every input. -/
def geocodeNone : String → Option GeocodeHit := fun _ => none

/-- A geocoder returning a city-scale hit on the equator (latitude `0`). -/
def geocodeZeroLat : String → Option GeocodeHit :=
  fun _ => some { lat := 0, lon := 10, isCountry := false }

/-- A geocoder returning a country-scale hit with nonzero coordinates. -/
def geocodeCountryHit : String → Option GeocodeHit :=
  fun _ => some { lat := 9, lon := 8, isCountry := true }

/-- A geocoder returning a city-scale hit with nonzero coordinates. -/
def geocodeCityHit : String → Option GeocodeHit :=
  fun _ => some { lat := 7, lon := 3, isCountry := false }

/-- A minimal provider record with id `"A"`. -/
def sampleA : PredictHQEvent :=
  { id := "A", title := "Sample A", category := "concerts",
    start := "2025-01-01T00:00:00Z", timezone := "UTC",
    ticket_url := some "https://tickets.example/a" }

/-- The transform of `sampleA`. -/
def eventA : Event := transformEvent sampleA

/-- A per-id fetcher for which `"A"` succeeds and every other id fails. -/
def fetchAB : String → Except String Event :=
  fun i => if i = "A" then Except.ok eventA else Except.error "network failure"

/-- A provider response with an empty `results` array. -/
def emptyResponse : PredictHQResponse := {}

/-- A record carrying no provider URL anywhere (and no venue data at all). -/
def sampleNoUrl : PredictHQEvent :=
  { id := "n1", title := "Jazz Night", category := "concerts",
    start := "2025-03-01T00:00:00Z", timezone := "UTC" }

/-- A record whose entity list holds an organizer with one formatted address
before a venue entity with another. -/
def recTwoAddr : PredictHQEvent :=
  { id := "e7", title := "Expo", category := "expos",
    start := "2025-05-01T00:00:00Z", timezone := "UTC",
    entities := some
      [{ name := "Org Inc", type := "organizer",
         formatted_address := some "9 Nowhere St, Elsewhere, USA" },
       { name := "The Hall", type := "venue",
         formatted_address := some "123 Main St, Springfield, USA" }] }

/-- A record whose only entity is a venue with the round-trip formatted
address and whose address block has no locality. -/
def recVenueOnly : PredictHQEvent :=
  { id := "e7b", title := "Fair", category := "expos",
    start := "2025-06-01T00:00:00Z", timezone := "UTC",
    entities := some
      [{ name := "The Hall", type := "venue",
         formatted_address := some "123 Main St, Springfield, USA" }] }

/-- A record with no coordinates, no address block and no entities. -/
def recBare : PredictHQEvent :=
  { id := "b1", title := "Mystery", category := "community",
    start := "2025-07-01T00:00:00Z", timezone := "UTC" }

/-- Filters with nonzero coordinates, a 10-mile radius and a city name. -/
def filtersCoords10 : EventFilters :=
  { city := some "Lagos", latitude := some 2, longitude := some 3, radius := some 10 }

/-- Filters with the legitimate coordinate pair `(0, 0)` and a city name. -/
def filtersZeroZero : EventFilters :=
  { city := some "Lagos", latitude := some 0, longitude := some 0 }

/-- Filters with nonzero coordinates and an explicit radius of `0` miles. -/
def filtersRadiusZero : EventFilters :=
  { latitude := some 1, longitude := some 1, radius := some 0 }

/-- Filters with nonzero coordinates and no radius. -/
def filtersCoordsOnly : EventFilters :=
  { latitude := some 4, longitude := some 5 }

/-- Filters with only a city name. -/
def filtersCityOnly : EventFilters := { city := some "France" }

/-- Filters with only a city name and an explicit radius of `0` miles. -/
def filtersCityRadiusZero : EventFilters := { city := some "France", radius := some 0 }

/-- Filters with a city name and a free-text query, no coordinates. -/
def filtersCityQuery : EventFilters := { city := some "Atlantis", query := some "jazz" }

/-! ## Helper lemmas -/

theorem strTruthy_getD_ne {o : Option String} (h : strTruthy o = true) : o.getD "" ≠ "" := by
  cases o with
  | none => simp [strTruthy] at h
  | some s =>
      by_cases hs : s = ""
      · simp [strTruthy, hs] at h
      · simpa using hs

theorem append_ne_empty_left (a b : String) (h : a.length ≠ 0) : a ++ b ≠ "" := by
  intro he
  have hl := congrArg String.length he
  rw [String.length_append] at hl
  have h0 : ("" : String).length = 0 := rfl
  omega

theorem jsStrOr_truthy {a b : Option String} (h : (strTruthy a || strTruthy b) = true) :
    strTruthy (jsStrOr a b) = true := by
  unfold jsStrOr
  by_cases ha : strTruthy a = true
  · simp [ha]
  · simp [ha] at h ⊢
    exact h

theorem findParam_cons_self (key v : String) (l : List (String × String)) :
    findParam key ((key, v) :: l) = some v := by
  simp [findParam]

theorem findParam_cons_ne (key k v : String) (l : List (String × String)) (h : key ≠ k) :
    findParam key ((k, v) :: l) = findParam key l := by
  simp [findParam, h]

theorem findParam_append (key : String) (l₁ l₂ : List (String × String)) :
    findParam key (l₁ ++ l₂) =
      ((findParam key l₁).rec (findParam key l₂) (fun v => some v)) := by
  induction l₁ with
  | nil => simp [findParam]
  | cons a t ih =>
      obtain ⟨k, v⟩ := a
      by_cases h : key = k
      · simp [findParam, h]
      · simp [findParam, h, ih]

theorem tailParams_no_location (key now : String) (filters : EventFilters)
    (h1 : key ≠ "start.gte") (h2 : key ≠ "start.lte") (h3 : key ≠ "q")
    (h4 : key ≠ "category") (h5 : key ≠ "private") (h6 : key ≠ "limit")
    (h7 : key ≠ "sort") :
    findParam key (tailParams now filters) = none := by
  unfold tailParams
  split <;> split <;> split <;> split <;>
    simp [findParam, h1, h2, h3, h4, h5, h6, h7]

/-! ## Claim theorems -/

/-- C10: for every provider record, `transformEvent` sets `isOnline` to
`true` exactly when the record's `private` field is `true` (and to `false`
when `private` is `false` or absent): the online/offline flag is derived from
the provider's privacy flag. -/
theorem isOnline_iff_private_flag (p : PredictHQEvent) :
    (transformEvent p).isOnline = true ↔ p.private_ = some true := by
  cases hp : p.private_ with
  | none => simp [transformEvent, hp]
  | some b => cases b <;> simp [transformEvent, hp]

/-- C9: the transformed `venue` is present only if at least one of the
coordinates (location array or geo geometry), the address block, or a
venue-typed entity existed in the source record; when none of these existed,
`venue` is absent. -/
theorem venue_presence_iff_sources (p : PredictHQEvent) :
    ((transformEvent p).venue ≠ none →
       (geoOf p ≠ none ∨ addressOf p ≠ none ∨ venueEntityOf p ≠ none)) ∧
    ((geoOf p = none ∧ addressOf p = none ∧ venueEntityOf p = none) →
       (transformEvent p).venue = none) := by
  constructor
  · intro h
    by_contra hn
    push_neg at hn
    obtain ⟨h1, h2, h3⟩ := hn
    exact h (by simp [transformEvent, h1, h2, h3])
  · rintro ⟨h1, h2, h3⟩
    simp [transformEvent, h1, h2, h3]

/-- Witness for C9 at a record with no coordinates, address or entities. -/
theorem venue_presence_iff_sources_witness : (transformEvent recBare).venue = none :=
  (venue_presence_iff_sources recBare).2 ⟨rfl, rfl, rfl⟩

/-- C2: `getEventsByIds` fetches each identifier independently and never
throws; the result is exactly the sequence of Events whose lookups succeeded,
in input order (failed lookups are dropped); in particular with a fetcher for
which `"A"` succeeds and `"B"` fails, `getEventsByIds ["A", "B"]` returns
exactly `[eventA]`. -/
theorem getEventsByIds_spec :
    (∀ (fetchById : String → Except String Event) (ids : List String),
       getEventsByIds fetchById ids = ids.filterMap (fun i => (fetchById i).toOption)) ∧
    getEventsByIds fetchAB ["A", "B"] = [eventA] := by
  constructor
  · intro f ids
    induction ids with
    | nil => rfl
    | cons a t ih =>
        simp only [getEventsByIds, List.map_cons, List.filterMap_cons] at ih ⊢
        cases (f a).toOption <;> simp [ih]
  · rfl

/-- C3: `getEventById` fails with a not-found error whenever the provider
returns zero results or no result whose id equals the requested identifier;
on the empty-result-set case the error message contains the requested
identifier; when a matching result exists it returns exactly the transform of
the matching record. -/
theorem getEventById_spec (eventId : String) (resp : PredictHQResponse) :
    (resp.results = [] →
       getEventById eventId resp =
         Except.error ("Event not found. The event ID \"" ++ eventId ++
           "\" may be invalid or the event may no longer be available.")) ∧
    (resp.results.find? (fun e => e.id == eventId) = none →
       ∃ msg, getEventById eventId resp = Except.error msg ∧
         ∃ pre post, msg = pre ++ eventId ++ post) ∧
    (∀ e, resp.results.find? (fun e2 => e2.id == eventId) = some e →
       getEventById eventId resp = Except.ok (transformEvent e)) := by
  refine ⟨?_, ?_, ?_⟩
  · intro h
    simp [getEventById, h]
  · intro h
    by_cases he : resp.results.isEmpty
    · refine ⟨_, by simp [getEventById, he], "Event not found. The event ID \"",
        "\" may be invalid or the event may no longer be available.", rfl⟩
    · refine ⟨_, by simp [getEventById, he, h], "Event not found. The event ID \"",
        "\" was not found in the API response.", rfl⟩
  · intro e he
    have hne : resp.results.isEmpty = false := by
      cases hr : resp.results with
      | nil => rw [hr] at he; simp at he
      | cons x xs => simp [hr]
    simp [getEventById, hne, he]

/-- Witness for C3: an empty result set for id `"missing"` yields the
not-found error whose message carries the identifier. -/
theorem getEventById_spec_witness :
    getEventById "missing" emptyResponse =
      Except.error
        "Event not found. The event ID \"missing\" may be invalid or the event may no longer be available." :=
  ((getEventById_spec "missing" emptyResponse).1 rfl).trans rfl

theorem entityUrl_truthy_or_none (es : List PHQEntity) :
    entityUrl es = none ∨ strTruthy (entityUrl es) = true := by
  unfold entityUrl
  cases hf : es.find? (fun e => strTruthy e.url || strTruthy e.website) with
  | none => exact Or.inl rfl
  | some e =>
      have hp := List.find?_some hf
      exact Or.inr (jsStrOr_truthy hp)

theorem providerUrl_truthy_or_none (p : PredictHQEvent) :
    providerUrl p = none ∨ strTruthy (providerUrl p) = true := by
  unfold providerUrl
  split_ifs with h1 h2 h3 h4
  · exact Or.inr h1
  · exact Or.inr h2
  · exact Or.inr h3
  · exact Or.inr h4
  · cases hes : p.entities with
    | none => exact Or.inl rfl
    | some es => exact entityUrl_truthy_or_none es

theorem providerUrl_eq_none {p : PredictHQEvent} (h : hasNoProviderUrl p = true) :
    providerUrl p = none := by
  unfold hasNoProviderUrl at h
  simp only [Bool.and_eq_true] at h
  obtain ⟨⟨⟨⟨ht, hx⟩, hu⟩, hw⟩, hall⟩ := h
  rw [Option.isNone_iff_eq_none] at ht hx hu hw
  unfold providerUrl
  rw [ht, hx, hu, hw]
  cases hes : p.entities with
  | none => simp [strTruthy]
  | some es =>
      rw [hes] at hall
      have hfind : es.find? (fun e => strTruthy e.url || strTruthy e.website) = none := by
        rw [List.find?_eq_none]
        intro e he
        have h2 := List.all_eq_true.mp hall e he
        simp only [Bool.and_eq_true, Option.isNone_iff_eq_none] at h2
        simp [strTruthy, h2.1, h2.2]
      show entityUrl es = none
      unfold entityUrl
      rw [hfind]

/-- C1: every transformed Event has a non-empty `url`; and if the record
carries none of `ticket_url`, `external_url`, `url`, `website`, nor any
entity with a `url` or `website`, the returned url is the synthesized Google
search URL embedding the event's title and the resolved city. -/
theorem transformEvent_url_spec (p : PredictHQEvent) :
    (transformEvent p).url ≠ "" ∧
    (hasNoProviderUrl p = true → (transformEvent p).url = googleFallbackUrl p) := by
  have hurl : (transformEvent p).url = eventUrlOf p := rfl
  constructor
  · rw [hurl]
    unfold eventUrlOf
    rcases providerUrl_truthy_or_none p with h | h
    · rw [h]
      simp only [strTruthy, Bool.false_eq_true, if_false]
      unfold googleFallbackUrl
      exact append_ne_empty_left _ _ (by decide)
    · rw [if_pos h]
      exact strTruthy_getD_ne h
  · intro h
    rw [hurl]
    unfold eventUrlOf
    rw [providerUrl_eq_none h]
    simp [strTruthy]

/-- Witness for C1 at a record with no provider URL: the url is the Google
search URL for the title and (here absent) city. -/
theorem transformEvent_url_spec_witness :
    (transformEvent sampleNoUrl).url ≠ "" ∧
    (transformEvent sampleNoUrl).url =
      "https://www.google.com/search?q=Jazz%20Night%20tickets%20" :=
  ⟨(transformEvent_url_spec sampleNoUrl).1,
   ((transformEvent_url_spec sampleNoUrl).2 (by decide)).trans rfl⟩

theorem jsRound_eq (q : ℚ) (z : ℤ) (h1 : (z : ℚ) ≤ q + 1 / 2) (h2 : q + 1 / 2 < z + 1) :
    jsRound q = z := by
  unfold jsRound
  rw [Int.floor_eq_iff]
  exact ⟨h1, h2⟩

theorem jsRound_50 : jsRound 50 = 50 :=
  jsRound_eq 50 50 (by norm_num) (by norm_num)

theorem jsRound_0M : jsRound (0 * MILES_TO_KM) = 0 :=
  jsRound_eq _ 0 (by norm_num [MILES_TO_KM]) (by norm_num [MILES_TO_KM])

theorem jsRound_10M : jsRound (10 * MILES_TO_KM) = 16 :=
  jsRound_eq _ 16 (by norm_num [MILES_TO_KM]) (by norm_num [MILES_TO_KM])

theorem jsRound_25M : jsRound (25 * MILES_TO_KM) = 40 :=
  jsRound_eq _ 40 (by norm_num [MILES_TO_KM]) (by norm_num [MILES_TO_KM])

theorem jsRound_30M : jsRound (30 * MILES_TO_KM) = 48 :=
  jsRound_eq _ 48 (by norm_num [MILES_TO_KM]) (by norm_num [MILES_TO_KM])

theorem jsRound_50M : jsRound (50 * MILES_TO_KM) = 80 :=
  jsRound_eq _ 80 (by norm_num [MILES_TO_KM]) (by norm_num [MILES_TO_KM])

theorem jsRound_300M : jsRound (300 * MILES_TO_KM) = 483 :=
  jsRound_eq _ 483 (by norm_num [MILES_TO_KM]) (by norm_num [MILES_TO_KM])

theorem numTruthy_some {r : ℚ} (h : r ≠ 0) : numTruthy (some r) = true := by
  simp [numTruthy, h]

theorem jsNumOr_of_falsy (a : Option ℚ) (b : ℚ) (h : numTruthy a = false) :
    jsNumOr a b = some b := by
  simp [jsNumOr, h]

theorem jsNumOr_of_truthy (a : Option ℚ) (b : ℚ) (h : numTruthy a = true) :
    jsNumOr a b = a := by
  simp [jsNumOr, h]

theorem buildParams_coords (geocode : String → Option GeocodeHit) (now : String)
    (filters : EventFilters)
    (hb : (numTruthy filters.latitude && numTruthy filters.longitude) = true) :
    buildSearchParams geocode now filters =
      { params := locationParams filters.latitude filters.longitude filters.radius ++
          tailParams now filters
        geocodeInvoked := false } := by
  rw [Bool.and_eq_true] at hb
  unfold buildSearchParams
  rw [hb.1]
  simp

theorem radius_param_coords (geocode : String → Option GeocodeHit) (now : String)
    (filters : EventFilters)
    (hb : (numTruthy filters.latitude && numTruthy filters.longitude) = true) :
    findParam "location_around.radius" (buildSearchParams geocode now filters).params =
      some (toString (jsRound
        (if numTruthy filters.radius then filters.radius.getD 0 * MILES_TO_KM else 50)) ++ "km") := by
  rw [buildParams_coords geocode now filters hb]
  unfold locationParams
  rw [if_pos hb]
  simp only [List.cons_append, List.nil_append]
  rw [findParam_cons_ne _ _ _ _ (by decide), findParam_cons_self]

theorem buildParams_geocoded (geocode : String → Option GeocodeHit) (now : String)
    (filters : EventFilters) (g : GeocodeHit)
    (hlat : numTruthy filters.latitude = false) (hlon : numTruthy filters.longitude = false)
    (hcity : strTruthy filters.city = true)
    (hg : geocode (filters.city.getD "") = some g) :
    buildSearchParams geocode now filters =
      { params := locationParams (some g.lat) (some g.lon)
          (if g.isCountry then jsNumOr filters.radius 300 else jsNumOr filters.radius 30) ++
          tailParams now filters
        geocodeInvoked := true } := by
  unfold buildSearchParams
  rw [if_pos (by simp [hlat, hlon, hcity]), hg]

theorem radius_param_geocoded (geocode : String → Option GeocodeHit) (now : String)
    (filters : EventFilters) (g : GeocodeHit)
    (hlat : numTruthy filters.latitude = false) (hlon : numTruthy filters.longitude = false)
    (hcity : strTruthy filters.city = true)
    (hg : geocode (filters.city.getD "") = some g)
    (hglat : g.lat ≠ 0) (hglon : g.lon ≠ 0) :
    findParam "location_around.radius" (buildSearchParams geocode now filters).params =
      some (toString (jsRound
        (if numTruthy (if g.isCountry then jsNumOr filters.radius 300
                       else jsNumOr filters.radius 30) then
          (if g.isCountry then jsNumOr filters.radius 300
           else jsNumOr filters.radius 30).getD 0 * MILES_TO_KM
         else 50)) ++ "km") := by
  rw [buildParams_geocoded geocode now filters g hlat hlon hcity hg]
  unfold locationParams
  rw [if_pos (by simp [numTruthy, hglat, hglon])]
  simp only [List.cons_append, List.nil_append]
  rw [findParam_cons_ne _ _ _ _ (by decide), findParam_cons_self]

/-- C4 counterexample: supplying the legitimate coordinate pair `(0, 0)`
together with a city name does invoke geocoding (JS truthiness treats `0` as
absent), and supplying an explicit radius of `0` miles emits `50km`, not
`round(0 × 1.60934) = 0` km. -/
theorem coords_truthiness_counterexample :
    (buildSearchParams geocodeNone "2025-01-01T00:00:00.000Z" filtersZeroZero).geocodeInvoked
        = true ∧
    findParam "location_around.radius"
        (buildSearchParams geocodeNone "2025-01-01T00:00:00.000Z" filtersRadiusZero).params
      = some "50km" ∧
    ("50km" : String) ≠ toString (jsRound ((0 : ℚ) * MILES_TO_KM)) ++ "km" := by
  refine ⟨by decide, ?_, ?_⟩
  · rw [radius_param_coords _ _ _ (by decide)]
    have h0 : numTruthy filtersRadiusZero.radius = false := by decide
    rw [h0]
    simp only [Bool.false_eq_true, if_false, jsRound_50]
    rfl
  · rw [jsRound_0M]
    decide

/-- C4 (amended): when latitude or longitude is supplied and nonzero,
`searchEvents` never invokes geocoding; and when both are nonzero and a
nonzero radius (in miles) is supplied, the emitted `location_around.radius`
equals `round(radius × 1.60934)` kilometers. -/
theorem coords_skip_geocode_radius_conversion (geocode : String → Option GeocodeHit)
    (now : String) (filters : EventFilters) :
    ((numTruthy filters.latitude || numTruthy filters.longitude) = true →
       (buildSearchParams geocode now filters).geocodeInvoked = false) ∧
    ((numTruthy filters.latitude && numTruthy filters.longitude) = true →
       ∀ r, filters.radius = some r → r ≠ 0 →
         findParam "location_around.radius" (buildSearchParams geocode now filters).params =
           some (toString (jsRound (r * MILES_TO_KM)) ++ "km")) := by
  constructor
  · intro h
    rw [Bool.or_eq_true] at h
    rcases h with h1 | h1 <;> simp [buildSearchParams, h1]
  · intro hb r hr hrne
    rw [radius_param_coords geocode now filters hb, hr]
    rw [numTruthy_some hrne, if_pos rfl, Option.getD_some]

/-- Witness for C4 at coordinates `(2, 3)` with a 10-mile radius:
no geocoding, and `round(10 × 1.60934) = 16` km is emitted. -/
theorem coords_skip_geocode_radius_conversion_witness :
    (buildSearchParams geocodeNone "T" filtersCoords10).geocodeInvoked = false ∧
    findParam "location_around.radius"
      (buildSearchParams geocodeNone "T" filtersCoords10).params = some "16km" := by
  constructor
  · exact (coords_skip_geocode_radius_conversion geocodeNone "T" filtersCoords10).1 (by decide)
  · exact ((coords_skip_geocode_radius_conversion geocodeNone "T" filtersCoords10).2
      (by decide) 10 rfl (by decide)).trans (by rw [jsRound_10M]; rfl)

/-- C5 counterexample: with only a city name, a successful city-scale geocode
hit on the equator (latitude `0`) emits no `location_around` parameters at
all (not the claimed 48 km); and a caller-supplied explicit radius of `0`
miles with a country-scale hit emits the 300-mile default `483km` instead of
the supplied radius. -/
theorem city_geocode_radius_counterexample :
    findParam "location_around.radius"
        (buildSearchParams geocodeZeroLat "T" filtersCityOnly).params = none ∧
    findParam "location_around.origin"
        (buildSearchParams geocodeZeroLat "T" filtersCityOnly).params = none ∧
    findParam "location_around.radius"
        (buildSearchParams geocodeCountryHit "T" filtersCityRadiusZero).params = some "483km" ∧
    ("483km" : String) ≠ toString (jsRound ((0 : ℚ) * MILES_TO_KM)) ++ "km" := by
  refine ⟨by decide, by decide, ?_, ?_⟩
  · rw [radius_param_geocoded geocodeCountryHit "T" filtersCityRadiusZero
      { lat := 9, lon := 8, isCountry := true } (by decide) (by decide) (by decide) rfl
      (by decide) (by decide)]
    have hsr : (if ({ lat := 9, lon := 8, isCountry := true } : GeocodeHit).isCountry then
        jsNumOr filtersCityRadiusZero.radius 300
        else jsNumOr filtersCityRadiusZero.radius 30) = some 300 := by decide
    rw [hsr]
    simp
    rw [numTruthy_some (show (300 : ℚ) ≠ 0 by decide), if_pos rfl, jsRound_300M]
    rfl
  · rw [jsRound_0M]
    decide

/-- C5 (amended): with only a city name (no truthy coordinates), if geocoding
succeeds with nonzero coordinates, the emitted radius is the 300-mile default
(483 km) for country-scale hits and the 30-mile default (48 km) for
city-scale hits, unless the caller supplied a nonzero radius, which is
converted and used instead. -/
theorem city_geocode_radius_defaults (geocode : String → Option GeocodeHit) (now : String)
    (filters : EventFilters) (g : GeocodeHit)
    (hlat : numTruthy filters.latitude = false) (hlon : numTruthy filters.longitude = false)
    (hcity : strTruthy filters.city = true)
    (hg : geocode (filters.city.getD "") = some g)
    (hglat : g.lat ≠ 0) (hglon : g.lon ≠ 0) :
    (numTruthy filters.radius = false → g.isCountry = true →
       findParam "location_around.radius" (buildSearchParams geocode now filters).params =
         some "483km") ∧
    (numTruthy filters.radius = false → g.isCountry = false →
       findParam "location_around.radius" (buildSearchParams geocode now filters).params =
         some "48km") ∧
    (∀ r, filters.radius = some r → r ≠ 0 →
       findParam "location_around.radius" (buildSearchParams geocode now filters).params =
         some (toString (jsRound (r * MILES_TO_KM)) ++ "km")) := by
  refine ⟨?_, ?_, ?_⟩
  · intro hr hco
    rw [radius_param_geocoded geocode now filters g hlat hlon hcity hg hglat hglon, hco,
      jsNumOr_of_falsy filters.radius 300 hr]
    simp
    rw [numTruthy_some (show (300 : ℚ) ≠ 0 by decide), if_pos rfl, jsRound_300M]
    rfl
  · intro hr hco
    rw [radius_param_geocoded geocode now filters g hlat hlon hcity hg hglat hglon, hco,
      jsNumOr_of_falsy filters.radius 30 hr]
    simp
    rw [numTruthy_some (show (30 : ℚ) ≠ 0 by decide), if_pos rfl, jsRound_30M]
    rfl
  · intro r hr hrne
    rw [radius_param_geocoded geocode now filters g hlat hlon hcity hg hglat hglon]
    have hany : (if g.isCountry then jsNumOr filters.radius 300
        else jsNumOr filters.radius 30) = some r := by
      cases g.isCountry <;> simp [jsNumOr, numTruthy_some hrne, hr]
    rw [hany, numTruthy_some hrne]
    simp

/-- Witness for C5: a country-scale geocode hit with no supplied radius emits
`483km`; a city-scale hit emits `48km`. -/
theorem city_geocode_radius_defaults_witness :
    findParam "location_around.radius"
        (buildSearchParams geocodeCountryHit "T" filtersCityOnly).params = some "483km" ∧
    findParam "location_around.radius"
        (buildSearchParams geocodeCityHit "T" filtersCityOnly).params = some "48km" := by
  constructor
  · exact (city_geocode_radius_defaults geocodeCountryHit "T" filtersCityOnly
      { lat := 9, lon := 8, isCountry := true }
      (by decide) (by decide) (by decide) rfl (by decide) (by decide)).1 (by decide) rfl
  · exact (city_geocode_radius_defaults geocodeCityHit "T" filtersCityOnly
      { lat := 7, lon := 3, isCountry := false }
      (by decide) (by decide) (by decide) rfl (by decide) (by decide)).2.1 (by decide) rfl

/-- C6: with a city name and no truthy coordinates, a geocoding failure does
not propagate (the builder is total): the city name is emitted as a free-text
`q` parameter and no `location_around` origin or radius parameter is
emitted. -/
theorem geocode_failure_keyword_fallback (geocode : String → Option GeocodeHit)
    (now : String) (filters : EventFilters)
    (hlat : numTruthy filters.latitude = false) (hlon : numTruthy filters.longitude = false)
    (hcity : strTruthy filters.city = true)
    (hfail : geocode (filters.city.getD "") = none) :
    ("q", filters.city.getD "") ∈ (buildSearchParams geocode now filters).params ∧
    findParam "location_around.origin" (buildSearchParams geocode now filters).params = none ∧
    findParam "location_around.radius" (buildSearchParams geocode now filters).params = none := by
  have hbuild : buildSearchParams geocode now filters =
      { params := ("q", filters.city.getD "") ::
          (locationParams filters.latitude filters.longitude filters.radius ++
           tailParams now filters)
        geocodeInvoked := true } := by
    unfold buildSearchParams
    rw [if_pos (by simp [hlat, hlon, hcity]), hfail]
  have hloc : locationParams filters.latitude filters.longitude filters.radius = [] := by
    simp [locationParams, hlat]
  rw [hbuild]
  refine ⟨List.mem_cons_self _ _, ?_, ?_⟩
  · rw [findParam_cons_ne _ _ _ _ (by decide), hloc, List.nil_append]
    exact tailParams_no_location _ _ _ (by decide) (by decide) (by decide) (by decide)
      (by decide) (by decide) (by decide)
  · rw [findParam_cons_ne _ _ _ _ (by decide), hloc, List.nil_append]
    exact tailParams_no_location _ _ _ (by decide) (by decide) (by decide) (by decide)
      (by decide) (by decide) (by decide)

/-- Witness for C6: city `"Atlantis"` with a failing geocoder is emitted as a
keyword and no location origin parameter appears. -/
theorem geocode_failure_keyword_fallback_witness :
    ("q", "Atlantis") ∈ (buildSearchParams geocodeNone "T" filtersCityQuery).params ∧
    findParam "location_around.origin"
      (buildSearchParams geocodeNone "T" filtersCityQuery).params = none := by
  have h := geocode_failure_keyword_fallback geocodeNone "T" filtersCityQuery
    (by decide) (by decide) (by decide) rfl
  exact ⟨h.1, h.2.1⟩

/-- C8 counterexample: with explicit nonzero coordinates and no radius,
`searchEvents` emits `50km` — the default is 50 kilometers applied without
any miles conversion, not the claimed 25 miles (`round(25 × 1.60934) = 40`
km). -/
theorem default_radius_counterexample :
    findParam "location_around.radius"
        (buildSearchParams geocodeNone "T" filtersCoordsOnly).params = some "50km" ∧
    ("50km" : String) ≠ toString (jsRound ((25 : ℚ) * MILES_TO_KM)) ++ "km" := by
  constructor
  · rw [radius_param_coords _ _ _ (by decide)]
    have h0 : numTruthy filtersCoordsOnly.radius = false := by decide
    rw [h0]
    simp only [Bool.false_eq_true, if_false, jsRound_50]
    rfl
  · rw [jsRound_25M]
    decide

/-- C8 (amended): with truthy explicit coordinates and no truthy radius, a
general search emits the default `50km` (a kilometer value, no conversion),
while a popular search supplies a 50-mile radius which is converted to
`80km`; caller-supplied nonzero radii in miles are always converted as
`round(r × 1.60934)` km. -/
theorem default_radius_amended (geocode : String → Option GeocodeHit) (now : String)
    (filters : EventFilters)
    (hb : (numTruthy filters.latitude && numTruthy filters.longitude) = true) :
    (numTruthy filters.radius = false →
       findParam "location_around.radius" (buildSearchParams geocode now filters).params =
         some "50km") ∧
    (∀ r, filters.radius = some r → r ≠ 0 →
       findParam "location_around.radius" (buildSearchParams geocode now filters).params =
         some (toString (jsRound (r * MILES_TO_KM)) ++ "km")) ∧
    (∀ la lo : ℚ, la ≠ 0 → lo ≠ 0 →
       findParam "location_around.radius"
         (buildSearchParams geocode now (popularFilters none (some la) (some lo))).params =
           some "80km") := by
  refine ⟨?_, ?_, ?_⟩
  · intro hr
    rw [radius_param_coords geocode now filters hb, hr]
    simp only [Bool.false_eq_true, if_false, jsRound_50]
    rfl
  · intro r hr hrne
    rw [radius_param_coords geocode now filters hb, hr]
    rw [numTruthy_some hrne, if_pos rfl, Option.getD_some]
  · intro la lo hla hlo
    have hpb : (numTruthy (popularFilters none (some la) (some lo)).latitude &&
        numTruthy (popularFilters none (some la) (some lo)).longitude) = true := by
      simp [popularFilters, numTruthy, hla, hlo]
    rw [radius_param_coords geocode now _ hpb]
    have hrad : (popularFilters none (some la) (some lo)).radius = some 50 := by
      simp [popularFilters, numTruthy, hla, hlo]
    rw [hrad]
    have h50 : numTruthy (some (50 : ℚ)) = true := by decide
    rw [h50, if_pos rfl, Option.getD_some, jsRound_50M]
    rfl

/-- Witness for C8: coordinates `(4, 5)` with no radius yield `50km`; a
popular search at `(6, 7)` yields `80km`. -/
theorem default_radius_amended_witness :
    findParam "location_around.radius"
        (buildSearchParams geocodeNone "T" filtersCoordsOnly).params = some "50km" ∧
    findParam "location_around.radius"
        (buildSearchParams geocodeNone "T" (popularFilters none (some 6) (some 7))).params =
      some "80km" := by
  have h := default_radius_amended geocodeNone "T" filtersCoordsOnly (by decide)
  exact ⟨h.1 (by decide), h.2.2 6 7 (by decide) (by decide)⟩

/-- C7 counterexample: `recTwoAddr` contains a venue-typed entity whose
`formatted_address` is `"123 Main St, Springfield, USA"` and its address
block supplies no locality, yet `venue.address` is the organizer entity's
formatted address (`entityWithAddress` prefers the first entity carrying any
formatted address), not the venue's; `venue.city` is still `"Springfield"`. -/
theorem venue_roundtrip_counterexample :
    (∃ e ∈ recTwoAddr.entities.getD [], e.type = "venue" ∧
       e.formatted_address = some "123 Main St, Springfield, USA") ∧
    ((recTwoAddr.location.head?.bind PHQLocation.address).bind PHQAddress.locality) = none ∧
    (transformEvent recTwoAddr).venue.map Venue.address ≠
      some "123 Main St, Springfield, USA" ∧
    (transformEvent recTwoAddr).venue.map Venue.address =
      some "9 Nowhere St, Elsewhere, USA" ∧
    (transformEvent recTwoAddr).venue.bind Venue.city = some "Springfield" := by
  decide

/-- C7 (amended): if the first venue-typed entity of the record carries
`formatted_address = "123 Main St, Springfield, USA"` and is also the first
entity carrying a truthy formatted address, and the record's address block
supplies no (truthy) locality, then the transformed `venue.address` equals
that formatted address and `venue.city` equals `"Springfield"` (its
second-to-last comma-separated segment). -/
theorem venue_roundtrip_amended (p : PredictHQEvent) (e : PHQEntity)
    (hfind : (p.entities.getD []).find? (fun x => x.type == "venue") = some e)
    (hfirst : (p.entities.getD []).find? (fun x => strTruthy x.formatted_address) = some e)
    (hfa : e.formatted_address = some "123 Main St, Springfield, USA")
    (hloc : strTruthy ((addressOf p).bind PHQAddress.locality) = false) :
    (transformEvent p).venue.map Venue.address = some "123 Main St, Springfield, USA" ∧
    (transformEvent p).venue.bind Venue.city = some "Springfield" := by
  have hv : venueEntityOf p = some e := hfind
  have hew : entityWithAddressOf p = some e := by
    simp [entityWithAddressOf, hfirst]
  have hta : strTruthy (some "123 Main St, Springfield, USA") = true := by decide
  have haddr : addressStringOf p = "123 Main St, Springfield, USA" := by
    simp [addressStringOf, hew, hfa, jsStrOr, hta]
  have hparts : (jsSplit "123 Main St, Springfield, USA" ',').map jsTrim =
      ["123 Main St", "Springfield", "USA"] := by decide
  have hcity : cityOf p = some "Springfield" := by
    simp [cityOf, hv, hfa, hloc, hta, hparts]
  constructor
  · simp [transformEvent, hv, haddr]
  · simp [transformEvent, hv, hcity]

/-- Witness for C7 at a record whose single entity is the venue. -/
theorem venue_roundtrip_amended_witness :
    (transformEvent recVenueOnly).venue.map Venue.address =
      some "123 Main St, Springfield, USA" ∧
    (transformEvent recVenueOnly).venue.bind Venue.city = some "Springfield" :=
  venue_roundtrip_amended recVenueOnly
    { name := "The Hall", type := "venue",
      formatted_address := some "123 Main St, Springfield, USA" }
    (by decide) (by decide) rfl (by decide)

end NearNow
